import Mathlib

/-!
Shallow embedding of the recipe persistence and versioning engine of a
voice-driven recipe manager (backend/database.py and
backend/ingredient_validator.py of the chef-voice-agent repository), together
with proofs about its behaviour.

Modelling conventions.  Python strings are Lean strings; str.lower and
str.strip are modelled on ASCII characters, which covers every string
constant the embedded code manipulates.  SQL tables are lists of rows in
insertion order; SELECT without ORDER BY returns rows in that order, and
ORDER BY created_at DESC is modelled by picking a row of maximal created_at.
Version numbers, floats in the source, are modelled by rationals built with
mkRat; at every concrete input used below the float computation of the
source is exact, so the rational model agrees with it.  Row ids (UUIDs in
the source) are natural numbers drawn from a counter in the database state.
-/

/-- Lowercase one character, as CPython str.lower acts on ASCII letters. -/
def lowerChar (c : Char) : Char :=
  if h : 65 ≤ c.toNat ∧ c.toNat ≤ 90 then
    Char.ofNatAux (c.toNat + 32) (Or.inl (by omega))
  else c

/-- Model of Python str.lower (ASCII range). -/
def pyLower (s : String) : String := ⟨s.data.map lowerChar⟩

/-- Whitespace recognised by Python str.strip. -/
def pySpace (c : Char) : Bool :=
  c == ' ' || c == '\t' || c == '\n' || c == '\r' || c == '\x0b' || c == '\x0c'

/-- Remove leading and trailing whitespace from a character list. -/
def stripList (l : List Char) : List Char :=
  ((l.dropWhile pySpace).reverse.dropWhile pySpace).reverse

/-- Model of Python str.strip. -/
def pyStrip (s : String) : String := ⟨stripList s.data⟩

/-- Containment of one character list in another as a contiguous segment. -/
def listPrefixOf : List Char → List Char → Bool
  | [], _ => true
  | _ :: _, [] => false
  | a :: as, b :: bs => a == b && listPrefixOf as bs

/-- Containment of a pattern anywhere inside a list, used to model SQL LIKE. -/
def listInfixOf (p : List Char) : List Char → Bool
  | [] => listPrefixOf p []
  | b :: bs => listPrefixOf p (b :: bs) || listInfixOf p bs

/-- Case-insensitive substring test, modelling ILIKE with a %...% pattern. -/
def containsCI (pat s : String) : Bool :=
  listInfixOf (pyLower pat).data (pyLower s).data

/-- Case-sensitive substring test, modelling Python "in" on strings. -/
def containsStr (pat s : String) : Bool :=
  listInfixOf pat.data s.data

theorem lowerChar_toNat_of_upper (c : Char) (h : 65 ≤ c.toNat ∧ c.toNat ≤ 90) :
    (lowerChar c).toNat = c.toNat + 32 := by
  unfold lowerChar
  rw [dif_pos h]
  rfl

theorem lowerChar_of_not_upper (c : Char) (h : ¬(65 ≤ c.toNat ∧ c.toNat ≤ 90)) :
    lowerChar c = c := dif_neg h

theorem lowerChar_idem (c : Char) : lowerChar (lowerChar c) = lowerChar c := by
  by_cases h : 65 ≤ c.toNat ∧ c.toNat ≤ 90
  · have h2 := lowerChar_toNat_of_upper c h
    have h3 : ¬(65 ≤ (lowerChar c).toNat ∧ (lowerChar c).toNat ≤ 90) := by omega
    exact lowerChar_of_not_upper _ h3
  · rw [lowerChar_of_not_upper c h]
    exact lowerChar_of_not_upper c h

theorem map_fixed {α : Type} (f : α → α) :
    ∀ (l : List α), (∀ x ∈ l, f x = x) → l.map f = l
  | [], _ => rfl
  | a :: l, h => by
    simp only [List.map_cons]
    rw [h a (List.mem_cons_self a l), map_fixed f l (fun x hx => h x (List.mem_cons_of_mem a hx))]

theorem mem_map_lowerChar_fixed {x : Char} {l : List Char}
    (hx : x ∈ l.map lowerChar) : lowerChar x = x := by
  obtain ⟨y, _, rfl⟩ := List.mem_map.mp hx
  exact lowerChar_idem y

theorem dropWhile_head_false (p : Char → Bool) :
    ∀ (l : List Char) (a : Char), (l.dropWhile p).head? = some a → p a = false
  | [], _ => fun h => by simp [List.dropWhile] at h
  | x :: xs, a => fun h => by
    rw [List.dropWhile_cons] at h
    split at h
    · exact dropWhile_head_false p xs a h
    · next hpx =>
      simp only [List.head?_cons, Option.some.injEq] at h
      subst h
      exact Bool.eq_false_iff.mpr hpx

theorem dropWhile_of_head_false (p : Char → Bool) :
    ∀ (l : List Char), (∀ a, l.head? = some a → p a = false) → l.dropWhile p = l
  | [], _ => rfl
  | x :: xs, h => by
    have hx : p x = false := h x rfl
    rw [List.dropWhile_cons, if_neg (by simp [hx])]

theorem dropWhile_idem (p : Char → Bool) (l : List Char) :
    (l.dropWhile p).dropWhile p = l.dropWhile p :=
  dropWhile_of_head_false p _ (fun a h => dropWhile_head_false p l a h)

theorem prefix_head_eq {l₁ l₂ : List Char} (h : l₁ <+: l₂) (hne : l₁ ≠ []) :
    l₂.head? = l₁.head? := by
  obtain ⟨t, rfl⟩ := h
  cases l₁ with
  | nil => exact absurd rfl hne
  | cons a l => rfl

theorem stripList_idem (l : List Char) : stripList (stripList l) = stripList l := by
  have hA : (stripList l).dropWhile pySpace = stripList l := by
    apply dropWhile_of_head_false
    intro a ha
    have hsuf : (l.dropWhile pySpace).reverse.dropWhile pySpace <:+ (l.dropWhile pySpace).reverse :=
      List.dropWhile_suffix pySpace
    have hpre : stripList l <+: l.dropWhile pySpace := by
      have h2 := List.reverse_prefix.mpr hsuf
      simpa [stripList] using h2
    have hne : stripList l ≠ [] := by
      intro hemp
      rw [hemp] at ha
      simp at ha
    have hhead : (l.dropWhile pySpace).head? = (stripList l).head? := prefix_head_eq hpre hne
    rw [ha] at hhead
    exact dropWhile_head_false pySpace l a hhead
  show (((stripList l).dropWhile pySpace).reverse.dropWhile pySpace).reverse = stripList l
  rw [hA]
  show (((l.dropWhile pySpace).reverse.dropWhile pySpace).reverse.reverse.dropWhile pySpace).reverse
      = stripList l
  rw [List.reverse_reverse, dropWhile_idem]
  rfl

theorem mem_stripList {x : Char} {l : List Char} (h : x ∈ stripList l) : x ∈ l := by
  unfold stripList at h
  rw [List.mem_reverse] at h
  have h1 := (List.dropWhile_suffix pySpace).sublist.subset h
  rw [List.mem_reverse] at h1
  exact (List.dropWhile_suffix pySpace).sublist.subset h1

theorem pyLower_of_stripped_lower (s : String) :
    pyLower (pyStrip (pyLower s)) = pyStrip (pyLower s) := by
  have hfix : (pyStrip (pyLower s)).data.map lowerChar = (pyStrip (pyLower s)).data := by
    apply map_fixed
    intro x hx
    have hx2 : x ∈ (pyLower s).data := mem_stripList hx
    exact mem_map_lowerChar_fixed hx2
  show String.mk ((pyStrip (pyLower s)).data.map lowerChar) = pyStrip (pyLower s)
  rw [hfix]

theorem pyLowerStrip_idem (s : String) :
    pyStrip (pyLower (pyStrip (pyLower s))) = pyStrip (pyLower s) := by
  rw [pyLower_of_stripped_lower]
  show String.mk (stripList (stripList (pyLower s).data)) = pyStrip (pyLower s)
  rw [stripList_idem]
  rfl

/-!
Unit Normalizer (backend/ingredient_validator.py).  STANDARD_UNITS is the
dictionary of category tables flattened in its insertion order; keys are
pairwise distinct in the source, so order never matters for lookups.
-/

/-- Metric mass units (STANDARD_UNITS [mass_metric]). -/
def mass_metric : List (String × String) :=
  [("mg", "milligrams"), ("milligram", "milligrams"), ("milligrams", "milligrams"),
   ("g", "grams"), ("gram", "grams"), ("grams", "grams"),
   ("kg", "kilograms"), ("kilogram", "kilograms"), ("kilograms", "kilograms")]

/-- Imperial mass units (STANDARD_UNITS [mass_imperial]). -/
def mass_imperial : List (String × String) :=
  [("oz", "ounces"), ("ounce", "ounces"), ("ounces", "ounces"),
   ("lb", "pounds"), ("lbs", "pounds"), ("pound", "pounds"), ("pounds", "pounds")]

/-- Metric volume units (STANDARD_UNITS [volume_metric]). -/
def volume_metric : List (String × String) :=
  [("ml", "milliliters"), ("milliliter", "milliliters"), ("milliliters", "milliliters"),
   ("l", "liters"), ("liter", "liters"), ("liters", "liters")]

/-- Imperial and US volume units (STANDARD_UNITS [volume_imperial]). -/
def volume_imperial : List (String × String) :=
  [("tsp", "teaspoon"), ("teaspoon", "teaspoon"), ("teaspoons", "teaspoon"),
   ("tbsp", "tablespoon"), ("tablespoon", "tablespoon"), ("tablespoons", "tablespoon"),
   ("cup", "cup"), ("cups", "cup"),
   ("pint", "pint"), ("pints", "pint"),
   ("quart", "quart"), ("quarts", "quart"),
   ("gallon", "gallon"), ("gallons", "gallon"),
   ("fl oz", "fluid ounce"), ("fluid ounce", "fluid ounce"), ("fluid ounces", "fluid ounce")]

/-- Count-based units (STANDARD_UNITS [count]). -/
def count_units : List (String × String) :=
  [("piece", "piece"), ("pieces", "piece"), ("whole", "whole"),
   ("clove", "clove"), ("cloves", "clove"),
   ("slice", "slice"), ("slices", "slice"),
   ("stick", "stick"), ("sticks", "stick"),
   ("leaf", "leaf"), ("leaves", "leaf"),
   ("sprig", "sprig"), ("sprigs", "sprig")]

/-- Approximate or subjective units (STANDARD_UNITS [approximate]). -/
def approximate_units : List (String × String) :=
  [("pinch", "pinch"), ("dash", "dash"), ("handful", "handful"), ("bunch", "bunch"),
   ("small", "small"), ("medium", "medium"), ("large", "large"), ("to taste", "to taste")]

/-- All category tables flattened, in the iteration order of the source dict. -/
def STANDARD_UNITS : List (String × String) :=
  mass_metric ++ mass_imperial ++ volume_metric ++ volume_imperial ++
    count_units ++ approximate_units

/-- First association for a key, modelling the dict lookups of the source. -/
def assocFind (k : String) : List (String × String) → Option String
  | [] => none
  | (a, b) :: rest => if a = k then some b else assocFind k rest

/-- Model of normalize_unit (ingredient_validator.py lines 140 to 162): empty
input is returned as the empty string; otherwise the input is lowercased and
stripped, looked up across the category tables, and the canonical form is
returned on a hit while the lowercased stripped input itself is returned on a
miss. -/
def normalize_unit (unit : String) : String :=
  if unit = "" then ""
  else
    match assocFind (pyStrip (pyLower unit)) STANDARD_UNITS with
    | some c => c
    | none => pyStrip (pyLower unit)

theorem assocFind_mem :
    ∀ (l : List (String × String)) (k v : String), assocFind k l = some v → (k, v) ∈ l
  | [], _, _ => fun h => by simp [assocFind] at h
  | (a, b) :: rest, k, v => fun h => by
    rw [assocFind] at h
    split at h
    · next hak =>
      simp only [Option.some.injEq] at h
      subst hak
      subst h
      exact List.mem_cons_self _ _
    · exact List.mem_cons_of_mem _ (assocFind_mem rest k v h)

set_option maxHeartbeats 1000000 in
/-- Every canonical form in the flattened tables is nonempty, is fixed by
lowercasing and stripping, and looks up to itself. -/
theorem standard_units_canonical :
    ∀ p ∈ STANDARD_UNITS,
      p.2 ≠ "" ∧ pyStrip (pyLower p.2) = p.2 ∧ assocFind p.2 STANDARD_UNITS = some p.2 := by
  decide

/-- C10: normalize_unit is idempotent: a canonical form from the tables maps
to itself, and the lowercased stripped fallback is a fixed point of
lowercasing and stripping, so a second application of normalize_unit changes
nothing. -/
theorem C10_normalize_unit_idempotent (u : String) :
    normalize_unit (normalize_unit u) = normalize_unit u := by
  by_cases hu : u = ""
  · subst hu
    rfl
  · cases hfind : assocFind (pyStrip (pyLower u)) STANDARD_UNITS with
    | some c =>
      have hres : normalize_unit u = c := by
        unfold normalize_unit
        rw [if_neg hu, hfind]
      obtain ⟨hc1, hc2, hc3⟩ :=
        standard_units_canonical _ (assocFind_mem _ _ _ hfind)
      rw [hres]
      unfold normalize_unit
      rw [if_neg hc1, hc2, hc3]
    | none =>
      have hres : normalize_unit u = pyStrip (pyLower u) := by
        unfold normalize_unit
        rw [if_neg hu, hfind]
      rw [hres]
      by_cases hv : pyStrip (pyLower u) = ""
      · rw [hv]
        rfl
      · unfold normalize_unit
        rw [if_neg hv, pyLowerStrip_idem, hfind]

/-- C5 counterexample: the unknown unit string "Bucket" is not returned
unchanged; normalize_unit lowercases it before giving up and returns
"bucket", although its lowercased stripped form is in no category table. -/
theorem C5_normalize_unit_counterexample :
    normalize_unit "Bucket" = "bucket" ∧ ("bucket" : String) ≠ "Bucket" ∧
      assocFind (pyStrip (pyLower "Bucket")) STANDARD_UNITS = none := by
  decide

/-- C5 (amended): when the lowercase-trimmed form of the input is present in
no category table, normalize_unit returns that lowercase-trimmed form (not
the raw input); when it is present, the canonical form of the table is
returned. -/
theorem C5_normalize_unit_spec (u : String) :
    (assocFind (pyStrip (pyLower u)) STANDARD_UNITS = none →
      normalize_unit u = pyStrip (pyLower u)) ∧
    (∀ c, assocFind (pyStrip (pyLower u)) STANDARD_UNITS = some c →
      normalize_unit u = c) := by
  constructor
  · intro h
    by_cases hu : u = ""
    · subst hu
      rfl
    · unfold normalize_unit
      rw [if_neg hu, h]
  · intro c h
    by_cases hu : u = ""
    · subst hu
      have hnone : assocFind (pyStrip (pyLower "")) STANDARD_UNITS = none := by decide
      rw [hnone] at h
      exact Option.noConfusion h
    · unfold normalize_unit
      rw [if_neg hu, h]

/-- C5 witness: the mixed-case padded input "TSP " is found in the volume
table after lowercasing and stripping, and normalizes to "teaspoon". -/
theorem C5_normalize_unit_spec_witness :
    normalize_unit "TSP " = "teaspoon" :=
  (C5_normalize_unit_spec "TSP ").2 "teaspoon" (by decide)

/-!
Version number arithmetic (backend/database.py lines 180 to 204).  Python
floats are modelled by rationals; int() truncates toward zero and round()
rounds half to even, as in CPython.  At every version number of the form
major + d/10 used by the system the float computation is exact once rounded,
so the rational model returns the same value the source returns.
-/

/-- Truncation toward zero, modelling Python int() on a number. -/
def pyInt (q : Rat) : Int :=
  if q.num < 0 then -(((-q.num) / (q.den : Int))) else q.num / (q.den : Int)

/-- Exact rational subtraction, used where the source subtracts floats. -/
def ratSub (a b : Rat) : Rat :=
  mkRat (a.num * b.den - b.num * a.den) (a.den * b.den)

/-- Banker rounding to the nearest integer, modelling Python round(). -/
def pyRound (q : Rat) : Int :=
  let f := q.floor
  let frac := ratSub q (mkRat f 1)
  if frac.blt (mkRat 1 2) then f
  else if (mkRat 1 2).blt frac then f + 1
  else if f % 2 = 0 then f else f + 1

/-- Exact rational addition, used where the source adds floats. -/
def ratAdd (a b : Rat) : Rat :=
  mkRat (a.num * b.den + b.num * a.den) (a.den * b.den)

/-- Exact rational multiplication, used where the source multiplies floats. -/
def ratMul (a b : Rat) : Rat :=
  mkRat (a.num * b.num) (a.den * b.den)

/-- Model of _calculate_next_version (database.py lines 180 to 204): a major
change truncates the current version and adds one; a minor change extracts
the first decimal digit with round((current - major) * 10), increments it,
and rebuilds major + new_minor / 10. -/
def _calculate_next_version (current_version : Rat) (change_type : String) : Rat :=
  if change_type = "major" then
    mkRat (pyInt current_version + 1) 1
  else
    let major := pyInt current_version
    let minor := pyRound (ratMul (ratSub current_version (mkRat major 1)) (mkRat 10 1))
    ratAdd (mkRat major 1) (mkRat (minor + 1) 10)

/-- C3: at current version 1.9 a minor change yields 2.0, not the 1.10
promised by the docstring of _calculate_next_version and by the spec: the
minor digit 9 is incremented to 10 and 1 + 10/10 collapses to 2.0 in the
arithmetic of the source.  Minor increments below the 9 digit and the major
rule floor(current) + 1 behave as documented. -/
theorem C3_calculate_next_version_at_1_9 :
    _calculate_next_version (mkRat 19 10) "minor" = mkRat 2 1 ∧
    mkRat 2 1 ≠ mkRat 11 10 ∧
    _calculate_next_version (mkRat 1 1) "minor" = mkRat 11 10 ∧
    _calculate_next_version (mkRat 3 2) "major" = mkRat 2 1 ∧
    _calculate_next_version (mkRat 15 10) "minor" = mkRat 16 10 := by
  decide

/-!
Change Detector (backend/database.py lines 207 to 293).  Recipe metadata
dicts are modelled as a structure of optional fields; ingredient dicts carry
a mandatory name (every call site supplies one; the source skips entries
without a name) and optional quantity and unit with the dict.get defaults 0
and the empty string.  Python set iteration order over removed, added and
common ingredient names is unspecified; the model iterates them in map
insertion order, which coincides with the source whenever each set has at
most one element, as in every concrete input below.
-/

/-- Tracked metadata fields of a recipe, with dict.get(field) semantics. -/
structure RecipeMeta where
  name : Option String := none
  description : Option String := none
  serves : Option Int := none
  cuisine : Option String := none
  category : Option String := none
  prep_time_minutes : Option Int := none
  cook_time_minutes : Option Int := none
  difficulty : Option String := none
deriving Repr, DecidableEq

/-- Ingredient dict as passed around by the source: name plus optional
quantity, unit, category, preparation notes and flags. -/
structure IngArg where
  name : String
  quantity : Option Int := none
  unit : Option String := none
  category : Option String := none
  preparation_notes : Option String := none
  is_garnish : Option Bool := none
  is_optional : Option Bool := none
deriving Repr, DecidableEq

/-- Result triple of the change detector. -/
structure DetectResult where
  summary : String
  fields_changed : List String
  change_type : String
deriving Repr, DecidableEq

/-- Render an optional integer the way a Python f-string renders the value
or None. -/
def showOptInt : Option Int → String
  | some n => toString n
  | none => "None"

/-- Insert into an association list keyed by lowercased ingredient name,
replacing in place on a duplicate key as a Python dict comprehension does. -/
def insertIngAssoc (m : List (String × IngArg)) (k : String) (v : IngArg) :
    List (String × IngArg) :=
  if m.any (fun p => p.1 == k) then
    m.map (fun p => if p.1 == k then (k, v) else p)
  else m ++ [(k, v)]

/-- Build the name-lowercased ingredient map of the source. -/
def buildIngMap (l : List IngArg) : List (String × IngArg) :=
  l.foldl (fun m i => insertIngAssoc m (pyLower i.name) i) []

/-- First value for a key in an ingredient association list. -/
def ingAssocFind (k : String) : List (String × IngArg) → Option IngArg
  | [] => none
  | (a, b) :: rest => if a = k then some b else ingAssocFind k rest

/-- Metadata change test of the source: a change is recorded only when the
new value differs and is not None. -/
def strFieldChanged (o n : Option String) : Bool :=
  decide (o ≠ n) && n.isSome

/-- Metadata change test for integer fields. -/
def intFieldChanged (o n : Option Int) : Bool :=
  decide (o ≠ n) && n.isSome

/-- Model of _detect_recipe_changes (database.py lines 207 to 293). -/
def _detect_recipe_changes (old_data new_data : RecipeMeta)
    (old_ingredients new_ingredients : List IngArg) : DetectResult :=
  -- metadata loop over the eight tracked fields in source order; only the
  -- name field and the three numeric fields contribute messages
  let metaPairs : List (String × Option String) :=
    (if strFieldChanged old_data.name new_data.name then
      [("name", some ("Renamed to \x27" ++ (new_data.name.getD "") ++ "\x27"))] else []) ++
    (if strFieldChanged old_data.description new_data.description then
      [("description", none)] else []) ++
    (if intFieldChanged old_data.serves new_data.serves then
      [("serves", some ("Changed serves from " ++ showOptInt old_data.serves ++
        " to " ++ showOptInt new_data.serves))] else []) ++
    (if strFieldChanged old_data.cuisine new_data.cuisine then
      [("cuisine", none)] else []) ++
    (if strFieldChanged old_data.category new_data.category then
      [("category", none)] else []) ++
    (if intFieldChanged old_data.prep_time_minutes new_data.prep_time_minutes then
      [("prep_time_minutes", some ("Changed prep time minutes from " ++
        showOptInt old_data.prep_time_minutes ++ " to " ++
        showOptInt new_data.prep_time_minutes))] else []) ++
    (if intFieldChanged old_data.cook_time_minutes new_data.cook_time_minutes then
      [("cook_time_minutes", some ("Changed cook time minutes from " ++
        showOptInt old_data.cook_time_minutes ++ " to " ++
        showOptInt new_data.cook_time_minutes))] else []) ++
    (if strFieldChanged old_data.difficulty new_data.difficulty then
      [("difficulty", none)] else [])
  let old_ing_map := buildIngMap old_ingredients
  let new_ing_map := buildIngMap new_ingredients
  let oldKeys := old_ing_map.map (fun p => p.1)
  let newKeys := new_ing_map.map (fun p => p.1)
  let removed := oldKeys.filter (fun k => !(newKeys.contains k))
  let added := newKeys.filter (fun k => !(oldKeys.contains k))
  let common := oldKeys.filter (fun k => newKeys.contains k)
  let modified := common.filterMap (fun k =>
    match ingAssocFind k old_ing_map, ingAssocFind k new_ing_map with
    | some oi, some ni =>
      let old_qty := oi.quantity.getD 0
      let new_qty := ni.quantity.getD 0
      if old_qty ≠ new_qty then
        let old_unit := oi.unit.getD ""
        let new_unit := ni.unit.getD ""
        some (k, "Changed " ++ k ++ " from " ++ toString old_qty ++ old_unit ++
          " to " ++ toString new_qty ++ new_unit)
      else none
    | _, _ => none)
  let fields_changed :=
    metaPairs.map (fun p => p.1) ++ removed ++ added ++ modified.map (fun p => p.1)
  let changes :=
    metaPairs.filterMap (fun p => p.2) ++ removed.map (fun k => "Removed " ++ k) ++
      added.map (fun k => "Added " ++ k) ++ modified.map (fun p => p.2)
  let change_type :=
    if fields_changed.contains "name" || fields_changed.length > 3 ||
        removed.length > 2 || added.length > 2 then "major" else "minor"
  let summary0 :=
    if changes.isEmpty then "Minor adjustments"
    else String.intercalate ", " (changes.take 5)
  let summary :=
    if changes.length > 5 then
      summary0 ++ " and " ++ toString (changes.length - 5) ++ " more changes"
    else summary0
  { summary := summary, fields_changed := fields_changed, change_type := change_type }

/-- C7: with identical metadata, old ingredients salt 10 g and new
ingredients salt 7 g plus garlic 5 g, the detector reports both the salt
quantity change and the garlic addition, and classifies the change as
minor. -/
theorem C7_detect_changes_salt_garlic :
    containsStr "Changed salt from 10g to 7g"
      (_detect_recipe_changes {} {}
        [{ name := "salt", quantity := some 10, unit := some "g" }]
        [{ name := "salt", quantity := some 7, unit := some "g" },
         { name := "garlic", quantity := some 5, unit := some "g" }]).summary = true ∧
    containsStr "Added garlic"
      (_detect_recipe_changes {} {}
        [{ name := "salt", quantity := some 10, unit := some "g" }]
        [{ name := "salt", quantity := some 7, unit := some "g" },
         { name := "garlic", quantity := some 5, unit := some "g" }]).summary = true ∧
    (_detect_recipe_changes {} {}
        [{ name := "salt", quantity := some 10, unit := some "g" }]
        [{ name := "salt", quantity := some 7, unit := some "g" },
         { name := "garlic", quantity := some 5, unit := some "g" }]).change_type
      = "minor" := by
  decide

/-!
Relational state (backend/database.py).  Each SQL table is a list of rows in
insertion order; a single counter provides fresh primary keys.  The Google
Sheets mirror, the connection pool and the conversations table are external
collaborators and are not part of the embedded core.  Sub-recipe links of
plate recipes (plate_batches) are not referenced by any verified property
and are omitted from the state.
-/

/-- Row of plate_recipes. -/
structure PlateRow where
  id : Nat
  chef_id : String
  name : String
  description : Option String := none
  serves : Option Int := none
  category : Option String := none
  cuisine : Option String := none
  plating_instructions : Option String := none
  garnish : Option String := none
  presentation_notes : Option String := none
  prep_time_minutes : Option Int := none
  cook_time_minutes : Option Int := none
  difficulty : Option String := none
  notes : Option String := none
  is_complete : Bool := false
  created_at : Nat := 0
deriving Repr, DecidableEq

/-- Row of batch_recipes. -/
structure BatchRow where
  id : Nat
  chef_id : String
  name : String
  description : Option String := none
  yield_quantity : Option Int := none
  yield_unit : Option String := none
  prep_time_minutes : Option Int := none
  cook_time_minutes : Option Int := none
  temperature : Option Int := none
  temperature_unit : String := "C"
  equipment : Option (List String) := none
  instructions : Option String := none
  notes : Option String := none
  is_complete : Bool := false
  created_at : Nat := 0
deriving Repr, DecidableEq

/-- Row of the shared ingredients catalog.  The save path inserts rows with a
chef_id; the version-snapshot path of the source inserts rows without one,
modelled by chef_id = none. -/
structure IngRow where
  id : Nat
  chef_id : Option String := none
  name : String
  unit : Option String := none
  category : Option String := none
deriving Repr, DecidableEq

/-- Row of plate_ingredients or batch_ingredients (current-state links). -/
structure LinkRow where
  recipe_id : Nat
  ingredient_id : Nat
  quantity : Option Int := none
  unit : Option String := none
  preparation_notes : Option String := none
  is_garnish : Bool := false
  is_optional : Bool := false
deriving Repr, DecidableEq

/-- Row of plate_recipe_versions. -/
structure PlateVersionRow where
  id : Nat
  recipe_id : Nat
  version_number : Rat
  is_active : Bool
  created_by : String
  change_summary : Option String := none
  change_reason : Option String := none
  name : Option String := none
  description : Option String := none
  serves : Option Int := none
  category : Option String := none
  cuisine : Option String := none
  plating_instructions : Option String := none
  garnish : Option String := none
  presentation_notes : Option String := none
  prep_time_minutes : Option Int := none
  cook_time_minutes : Option Int := none
  difficulty : Option String := none
  notes : Option String := none
deriving Repr, DecidableEq

/-- Row of batch_recipe_versions. -/
structure BatchVersionRow where
  id : Nat
  recipe_id : Nat
  version_number : Rat
  is_active : Bool
  created_by : String
  change_summary : Option String := none
  change_reason : Option String := none
  name : Option String := none
  description : Option String := none
  yield_quantity : Option Int := none
  yield_unit : Option String := none
  prep_time_minutes : Option Int := none
  cook_time_minutes : Option Int := none
  storage_instructions : Option String := none
  temperature : Option Int := none
  temperature_unit : Option String := none
  equipment : Option (List String) := none
  instructions : Option String := none
  notes : Option String := none
deriving Repr, DecidableEq

/-- Row of plate_version_ingredients or batch_version_ingredients; the
source inserts quantity and unit through dict.get with defaults 0 and the
empty string, so the columns are non-optional here. -/
structure VersionIngRow where
  version_id : Nat
  ingredient_id : Nat
  quantity : Int := 0
  unit : String := ""
  preparation_notes : Option String := none
  is_garnish : Bool := false
  is_optional : Bool := false
deriving Repr, DecidableEq

/-- Recipe metadata bag handed to _create_recipe_version; every field is
read with dict.get, so absent keys are none. -/
structure RecipeData where
  name : Option String := none
  description : Option String := none
  serves : Option Int := none
  category : Option String := none
  cuisine : Option String := none
  plating_instructions : Option String := none
  garnish : Option String := none
  presentation_notes : Option String := none
  prep_time_minutes : Option Int := none
  cook_time_minutes : Option Int := none
  difficulty : Option String := none
  notes : Option String := none
  yield_quantity : Option Int := none
  yield_unit : Option String := none
  storage_instructions : Option String := none
  temperature : Option Int := none
  temperature_unit : Option String := none
  equipment : Option (List String) := none
  instructions : Option String := none
deriving Repr, DecidableEq

/-- The database state. -/
structure DB where
  plate_recipes : List PlateRow := []
  batch_recipes : List BatchRow := []
  ingredients : List IngRow := []
  plate_ingredients : List LinkRow := []
  batch_ingredients : List LinkRow := []
  plate_recipe_versions : List PlateVersionRow := []
  batch_recipe_versions : List BatchVersionRow := []
  plate_version_ingredients : List VersionIngRow := []
  batch_version_ingredients : List VersionIngRow := []
  next_id : Nat := 1
deriving Repr, DecidableEq

/-!
Name Uniqueness Resolver (database.py lines 94 to 140).  The relevant table
is abstracted to its list of (chef_id, name) pairs.  The source strips the
desired name, keeps it when no recipe of the chef matches it
case-insensitively, and otherwise probes "{name} 2" .. "{name} 99" (the
while loop runs for version < 100 starting at 2, that is 98 probes) before
falling back to a Unix timestamp suffix.
-/

/-- SQL existence check of the source: some row of the chef carries the
candidate name up to case. -/
def recipeNameTaken (rows : List (String × String)) (chef cand : String) : Bool :=
  rows.any (fun r => decide (r.1 = chef) && decide (pyLower r.2 = pyLower cand))

/-- The probing loop of the source, structurally recursive on the remaining
probe budget; v is the candidate counter. -/
def probeVersion (rows : List (String × String)) (chef base : String) :
    Nat → Nat → Option String
  | 0, _ => none
  | fuel + 1, v =>
    if recipeNameTaken rows chef (base ++ " " ++ toString v) then
      probeVersion rows chef base fuel (v + 1)
    else some (base ++ " " ++ toString v)

/-- Model of _get_unique_recipe_name (database.py lines 94 to 140). -/
def _get_unique_recipe_name (rows : List (String × String)) (chef name : String)
    (timestamp : Nat) : String :=
  if recipeNameTaken rows chef (pyStrip name) = false then pyStrip name
  else
    match probeVersion rows chef (pyStrip name) 98 2 with
    | some c => c
    | none => pyStrip name ++ " " ++ toString timestamp

theorem probeVersion_finds (rows : List (String × String)) (chef base : String) :
    ∀ (fuel start k : Nat), start ≤ k → k < start + fuel →
      (∀ j, start ≤ j → j < k →
        recipeNameTaken rows chef (base ++ " " ++ toString j) = true) →
      recipeNameTaken rows chef (base ++ " " ++ toString k) = false →
      probeVersion rows chef base fuel start = some (base ++ " " ++ toString k) := by
  intro fuel
  induction fuel with
  | zero =>
    intro start k h1 h2 h3 h4
    omega
  | succ f ih =>
    intro start k h1 h2 h3 h4
    by_cases he : start = k
    · subst he
      simp only [probeVersion]
      rw [if_neg (by simp [h4])]
    · have htaken : recipeNameTaken rows chef (base ++ " " ++ toString start) = true :=
        h3 start le_rfl (by omega)
      simp only [probeVersion]
      rw [if_pos htaken]
      exact ih (start + 1) k (by omega) (by omega)
        (fun j hj1 hj2 => h3 j (by omega) hj2) h4

/-- C4 counterexample: with an empty recipe table, the desired name
"Tomato " (trailing blank) is not returned unchanged: the source strips it
and returns "Tomato", although no existing recipe clashes with it. -/
theorem C4_unique_name_counterexample :
    _get_unique_recipe_name [] "c1" "Tomato " 0 = "Tomato" ∧
      ("Tomato" : String) ≠ "Tomato " ∧
      recipeNameTaken [] "c1" (pyStrip "Tomato ") = false := by
  decide

/-- C4 (amended): the resolver first strips the desired name; when no recipe
of the chef matches the stripped name case-insensitively it returns the
stripped name unchanged, and otherwise it returns "{stripped} k" for the
smallest unused k between 2 and 99, the timestamp fallback firing only past
that probe bound. -/
theorem C4_unique_name_spec (rows : List (String × String)) (chef name : String)
    (timestamp k : Nat) :
    (recipeNameTaken rows chef (pyStrip name) = false →
      _get_unique_recipe_name rows chef name timestamp = pyStrip name) ∧
    (recipeNameTaken rows chef (pyStrip name) = true →
      2 ≤ k → k ≤ 99 →
      (∀ j, 2 ≤ j → j < k →
        recipeNameTaken rows chef (pyStrip name ++ " " ++ toString j) = true) →
      recipeNameTaken rows chef (pyStrip name ++ " " ++ toString k) = false →
      _get_unique_recipe_name rows chef name timestamp
        = pyStrip name ++ " " ++ toString k) := by
  constructor
  · intro h
    unfold _get_unique_recipe_name
    rw [if_pos h]
  · intro h hk2 hk99 hall hfree
    unfold _get_unique_recipe_name
    rw [if_neg (by simp [h])]
    rw [probeVersion_finds rows chef (pyStrip name) 98 2 k hk2 (by omega) hall hfree]

/-- C4 witness: a chef already owning "Tomato" saves another "Tomato" and the
resolver hands back "Tomato 2", the smallest free suffix. -/
theorem C4_unique_name_spec_witness :
    _get_unique_recipe_name [("c1", "Tomato")] "c1" "Tomato" 0 = "Tomato 2" := by
  have h := (C4_unique_name_spec [("c1", "Tomato")] "c1" "Tomato" 0 2).2 (by decide)
    (by omega) (by omega) (fun j hj1 hj2 => absurd hj2 (by omega)) (by decide)
  exact h.trans (by decide)

/-!
Ingredient catalog resolution.  The save path (database.py lines 1278 to
1298) looks a catalog row up by chef and lowercased name and inserts a
chef-scoped row on a miss.  The version-snapshot path (database.py lines
351 to 368 and 410 to 424, inline in _create_recipe_version) looks a row up
by the raw name only, with neither LOWER nor a chef filter, and inserts a
row without a chef on a miss.
-/

/-- Model of _get_or_create_ingredient (database.py lines 1278 to 1298). -/
def _get_or_create_ingredient (db : DB) (chef_id name : String)
    (unit category : Option String) : DB × Nat :=
  match db.ingredients.find? (fun r =>
      decide (r.chef_id = some chef_id ∧ pyLower r.name = pyLower name)) with
  | some r => (db, r.id)
  | none =>
    ({ db with
        ingredients := db.ingredients ++
          [{ id := db.next_id, chef_id := some chef_id, name := name,
             unit := unit, category := category }],
        next_id := db.next_id + 1 },
     db.next_id)

/-- Model of the inline catalog resolution of _create_recipe_version
(database.py lines 351 to 368): an exact-name, chef-agnostic lookup, with a
chef-less insert using the dict.get defaults for unit and category. -/
def _version_resolve_ingredient (db : DB) (ing : IngArg) : DB × Nat :=
  match db.ingredients.find? (fun r => decide (r.name = ing.name)) with
  | some r => (db, r.id)
  | none =>
    ({ db with
        ingredients := db.ingredients ++
          [{ id := db.next_id, chef_id := none, name := ing.name,
             unit := some (ing.unit.getD ""), category := some (ing.category.getD "Other") }],
        next_id := db.next_id + 1 },
     db.next_id)

/-- One iteration of the plate version-ingredient snapshot loop of
_create_recipe_version. -/
def snapPlateStep (vid : Nat) (d : DB) (ing : IngArg) : DB :=
  (fun pr =>
    { pr.1 with
        plate_version_ingredients := pr.1.plate_version_ingredients ++
          [{ version_id := vid, ingredient_id := pr.2,
             quantity := ing.quantity.getD 0, unit := ing.unit.getD "",
             preparation_notes := ing.preparation_notes,
             is_garnish := ing.is_garnish.getD false,
             is_optional := ing.is_optional.getD false }] })
    (_version_resolve_ingredient d ing)

/-- One iteration of the batch version-ingredient snapshot loop; the batch
insert carries no is_garnish column. -/
def snapBatchStep (vid : Nat) (d : DB) (ing : IngArg) : DB :=
  (fun pr =>
    { pr.1 with
        batch_version_ingredients := pr.1.batch_version_ingredients ++
          [{ version_id := vid, ingredient_id := pr.2,
             quantity := ing.quantity.getD 0, unit := ing.unit.getD "",
             preparation_notes := ing.preparation_notes,
             is_optional := ing.is_optional.getD false }] })
    (_version_resolve_ingredient d ing)

/-- Plate branch of _create_recipe_version: insert the version row with
is_active true, then snapshot the ingredient list. -/
def createPlateVersion (db : DB) (recipe_id : Nat) (version_number : Rat)
    (recipe_data : RecipeData) (ingredients : List IngArg)
    (created_by : String) (change_summary change_reason : Option String) : DB :=
  ingredients.foldl (snapPlateStep db.next_id)
    { db with
        plate_recipe_versions := db.plate_recipe_versions ++
          [{ id := db.next_id, recipe_id := recipe_id,
             version_number := version_number, is_active := true,
             created_by := created_by, change_summary := change_summary,
             change_reason := change_reason,
             name := recipe_data.name, description := recipe_data.description,
             serves := recipe_data.serves, category := recipe_data.category,
             cuisine := recipe_data.cuisine,
             plating_instructions := recipe_data.plating_instructions,
             garnish := recipe_data.garnish,
             presentation_notes := recipe_data.presentation_notes,
             prep_time_minutes := recipe_data.prep_time_minutes,
             cook_time_minutes := recipe_data.cook_time_minutes,
             difficulty := recipe_data.difficulty, notes := recipe_data.notes }],
        next_id := db.next_id + 1 }

/-- Batch branch of _create_recipe_version. -/
def createBatchVersion (db : DB) (recipe_id : Nat) (version_number : Rat)
    (recipe_data : RecipeData) (ingredients : List IngArg)
    (created_by : String) (change_summary change_reason : Option String) : DB :=
  ingredients.foldl (snapBatchStep db.next_id)
    { db with
        batch_recipe_versions := db.batch_recipe_versions ++
          [{ id := db.next_id, recipe_id := recipe_id,
             version_number := version_number, is_active := true,
             created_by := created_by, change_summary := change_summary,
             change_reason := change_reason,
             name := recipe_data.name, description := recipe_data.description,
             yield_quantity := recipe_data.yield_quantity,
             yield_unit := recipe_data.yield_unit,
             prep_time_minutes := recipe_data.prep_time_minutes,
             cook_time_minutes := recipe_data.cook_time_minutes,
             storage_instructions := recipe_data.storage_instructions,
             temperature := recipe_data.temperature,
             temperature_unit := recipe_data.temperature_unit,
             equipment := recipe_data.equipment,
             instructions := recipe_data.instructions,
             notes := recipe_data.notes }],
        next_id := db.next_id + 1 }

/-- Model of _create_recipe_version (database.py lines 296 to 438): inserts
a version row with is_active true, then snapshots the ingredient list; it
never touches the is_active flag of any existing version row. -/
def _create_recipe_version (db : DB) (recipe_id : Nat) (recipe_type : String)
    (version_number : Rat) (recipe_data : RecipeData) (ingredients : List IngArg)
    (created_by : String) (change_summary change_reason : Option String) : DB × Nat :=
  if recipe_type = "plate" then
    (createPlateVersion db recipe_id version_number recipe_data ingredients
      created_by change_summary change_reason, db.next_id)
  else
    (createBatchVersion db recipe_id version_number recipe_data ingredients
      created_by change_summary change_reason, db.next_id)

/-- Empty database used to exercise _create_recipe_version twice. -/
def C2db0 : DB := { next_id := 1 }

/-- State after creating version 1.0 for recipe 10. -/
def C2db1 : DB :=
  (_create_recipe_version C2db0 10 "plate" (mkRat 1 1) {} [] "chef"
    (some "Initial recipe creation (v1.0)") none).1

/-- State after also creating version 1.1 for recipe 10. -/
def C2db2 : DB :=
  (_create_recipe_version C2db1 10 "plate" (mkRat 11 10) {} [] "chef"
    (some "Minor adjustments") none).1

/-- C2 failing run: after two version creations for the same recipe both
rows carry is_active = true; _create_recipe_version contains no statement
flipping the previously active version off, so the single-active-version
invariant claimed by the spec and checked by the repository test suite is
violated as soon as a second version exists. -/
theorem C2_create_version_leaves_old_active :
    C2db2.plate_recipe_versions.map (fun v => (v.recipe_id, v.version_number, v.is_active))
      = [(10, mkRat 1 1, true), (10, mkRat 11 10, true)] ∧
    (C2db2.plate_recipe_versions.filter
        (fun v => decide (v.recipe_id = 10) && v.is_active)).length = 2 := by
  decide

/-- Catalog holding one chef-scoped row named "Salt", for C6. -/
def C6db : DB :=
  { ingredients := [{ id := 1, chef_id := some "c1", name := "Salt" }], next_id := 2 }

/-- C6 counterexample: resolving "salt" for chef c1 finds the existing
"Salt" row on the save path (case-insensitive, chef-scoped), but the
version-snapshot path of _create_recipe_version misses it (its lookup is
case-sensitive and ignores the chef) and inserts a duplicate, chef-less
catalog row. -/
theorem C6_version_resolution_counterexample :
    _get_or_create_ingredient C6db "c1" "salt" none none = (C6db, 1) ∧
    (_version_resolve_ingredient C6db { name := "salt" }).2 = 2 ∧
    (_version_resolve_ingredient C6db { name := "salt" }).1.ingredients.map
        (fun r => (r.name, r.chef_id))
      = [("Salt", some "c1"), ("salt", none)] := by
  decide

/-- C6 (amended): the save-path resolution _get_or_create_ingredient is an
idempotent chef-scoped case-insensitive find-or-create, while the
version-snapshot resolution inside _create_recipe_version matches by exact
name with no chef scoping and creates a chef-less row on a miss. -/
theorem C6_ingredient_resolution_spec (db : DB) (chef name : String)
    (unit category : Option String) (ing : IngArg) :
    (∀ r, db.ingredients.find? (fun r2 =>
        decide (r2.chef_id = some chef ∧ pyLower r2.name = pyLower name)) = some r →
      _get_or_create_ingredient db chef name unit category = (db, r.id)) ∧
    (db.ingredients.find? (fun r2 =>
        decide (r2.chef_id = some chef ∧ pyLower r2.name = pyLower name)) = none →
      (_get_or_create_ingredient db chef name unit category).1.ingredients =
        db.ingredients ++
          [{ id := db.next_id, chef_id := some chef, name := name,
             unit := unit, category := category }]) ∧
    (∀ r, db.ingredients.find? (fun r2 => decide (r2.name = ing.name)) = some r →
      _version_resolve_ingredient db ing = (db, r.id)) ∧
    (db.ingredients.find? (fun r2 => decide (r2.name = ing.name)) = none →
      (_version_resolve_ingredient db ing).1.ingredients =
        db.ingredients ++
          [{ id := db.next_id, chef_id := none, name := ing.name,
             unit := some (ing.unit.getD ""),
             category := some (ing.category.getD "Other") }]) := by
  refine ⟨?_, ?_, ?_, ?_⟩
  · intro r h
    unfold _get_or_create_ingredient
    rw [h]
  · intro h
    unfold _get_or_create_ingredient
    rw [h]
  · intro r h
    unfold _version_resolve_ingredient
    rw [h]
  · intro h
    unfold _version_resolve_ingredient
    rw [h]

/-- C6 witness: the save-path lookup of "SALT" for chef c1 is satisfied by
the existing "Salt" row and the catalog is left untouched. -/
theorem C6_ingredient_resolution_spec_witness :
    _get_or_create_ingredient C6db "c1" "SALT" none none = (C6db, 1) :=
  (C6_ingredient_resolution_spec C6db "c1" "SALT" none none { name := "x" }).1
    { id := 1, chef_id := some "c1", name := "Salt" } (by decide)

/-!
Recipe update (database.py lines 737 to 878).  The source looks the recipe
up case-insensitively, builds a dynamic UPDATE from the truthy arguments,
commits and returns success.  It never snapshots the old state, never calls
the change detector, and never creates a version: no statement in the
function touches a version table.
-/

/-- Truthiness of an optional string argument, as Python "if new_name:". -/
def truthyStr (o : Option String) : Bool := decide (o.getD "" ≠ "")

/-- Truthiness of an optional integer argument, as Python "if new_serves:". -/
def truthyInt (o : Option Int) : Bool := decide (o.getD 0 ≠ 0)

/-- Success message assembled by update_recipe from the supplied fields. -/
def updateMessage (old_name : String) (new_name new_description : Option String)
    (new_serves : Option Int) (new_cuisine new_category : Option String) : String :=
  "Updated " ++
    String.intercalate ", "
      ((if truthyStr new_name then
          ["name from \x27" ++ old_name ++ "\x27 to \x27" ++ new_name.getD "" ++ "\x27"]
        else []) ++
       (if truthyStr new_description then ["description"] else []) ++
       (if truthyInt new_serves then ["serves to " ++ toString (new_serves.getD 0)] else []) ++
       (if truthyStr new_cuisine then ["cuisine to \x27" ++ new_cuisine.getD "" ++ "\x27"] else []) ++
       (if truthyStr new_category then ["category to \x27" ++ new_category.getD "" ++ "\x27"] else [])) ++
    " for recipe"

/-- Structured result of update_recipe. -/
structure UpdateResult where
  success : Bool
  message : String
  recipe_id : Option Nat
  new_name : Option String := none
deriving Repr, DecidableEq

/-- Model of update_recipe (database.py lines 737 to 878). -/
def update_recipe (db : DB) (chef_id recipe_name recipe_type : String)
    (new_name new_description : Option String) (new_serves : Option Int)
    (new_cuisine new_category : Option String) : DB × UpdateResult :=
  match (if recipe_type = "plate" then
      (db.plate_recipes.find? (fun r =>
        decide (r.chef_id = chef_id ∧ pyLower r.name = pyLower recipe_name))).map
        (fun r => (r.id, r.name))
    else
      (db.batch_recipes.find? (fun r =>
        decide (r.chef_id = chef_id ∧ pyLower r.name = pyLower recipe_name))).map
        (fun r => (r.id, r.name))) with
  | none =>
    (db, { success := false,
           message := "Recipe \x27" ++ recipe_name ++ "\x27 not found",
           recipe_id := none })
  | some (rid, old_name) =>
    if (truthyStr new_name || truthyStr new_description ||
        (decide (recipe_type = "plate") &&
          (truthyInt new_serves || truthyStr new_cuisine || truthyStr new_category))) = false then
      (db, { success := false, message := "No fields to update", recipe_id := some rid })
    else
      ((if recipe_type = "plate" then
          { db with plate_recipes := db.plate_recipes.map (fun r =>
              if r.id = rid then
                { r with
                    name := if truthyStr new_name then new_name.getD r.name else r.name,
                    description :=
                      if truthyStr new_description then new_description else r.description,
                    serves := if truthyInt new_serves then new_serves else r.serves,
                    cuisine := if truthyStr new_cuisine then new_cuisine else r.cuisine,
                    category := if truthyStr new_category then new_category else r.category }
              else r) }
        else
          { db with batch_recipes := db.batch_recipes.map (fun r =>
              if r.id = rid then
                { r with
                    name := if truthyStr new_name then new_name.getD r.name else r.name,
                    description :=
                      if truthyStr new_description then new_description else r.description }
              else r) }),
       { success := true,
         message := updateMessage old_name new_name new_description new_serves
           new_cuisine new_category,
         recipe_id := some rid,
         new_name := some (if truthyStr new_name then new_name.getD old_name else old_name) })

/-- Database used to run update_recipe on a recipe that owns version 1.0,
mirroring TEST 2 of the repository test suite. -/
def C1db : DB :=
  { plate_recipes := [{ id := 1, chef_id := "chef", name := "Test Versioning Pancakes" }],
    plate_recipe_versions :=
      [{ id := 2, recipe_id := 1, version_number := mkRat 1 1, is_active := true,
         created_by := "chef", change_summary := some "Initial recipe creation (v1.0)" }],
    next_id := 3 }

/-- C1 failing run: update_recipe reports success while leaving every
version table untouched, for all inputs; in particular the minor update of
TEST 2 of the repository test suite (serves 4 to 6) succeeds with no new
version snapshot, no change detection and no next-version computation. -/
theorem C1_update_reports_success_without_version :
    (∀ (db : DB) (chef_id recipe_name recipe_type : String)
        (new_name new_description : Option String) (new_serves : Option Int)
        (new_cuisine new_category : Option String),
      (update_recipe db chef_id recipe_name recipe_type new_name new_description
          new_serves new_cuisine new_category).1.plate_recipe_versions
        = db.plate_recipe_versions ∧
      (update_recipe db chef_id recipe_name recipe_type new_name new_description
          new_serves new_cuisine new_category).1.batch_recipe_versions
        = db.batch_recipe_versions ∧
      (update_recipe db chef_id recipe_name recipe_type new_name new_description
          new_serves new_cuisine new_category).1.plate_version_ingredients
        = db.plate_version_ingredients ∧
      (update_recipe db chef_id recipe_name recipe_type new_name new_description
          new_serves new_cuisine new_category).1.batch_version_ingredients
        = db.batch_version_ingredients) ∧
    ((update_recipe C1db "chef" "Test Versioning Pancakes" "plate"
        none none (some 6) none none).2.success = true ∧
     (update_recipe C1db "chef" "Test Versioning Pancakes" "plate"
        none none (some 6) none none).1.plate_recipe_versions
       = C1db.plate_recipe_versions) := by
  constructor
  · intro db chef_id recipe_name recipe_type new_name new_description new_serves
      new_cuisine new_category
    unfold update_recipe
    split
    · exact ⟨rfl, rfl, rfl, rfl⟩
    · split
      · exact ⟨rfl, rfl, rfl, rfl⟩
      · split
        · exact ⟨rfl, rfl, rfl, rfl⟩
        · exact ⟨rfl, rfl, rfl, rfl⟩
  · exact ⟨by decide, by decide⟩

/-!
Recipe retrieval and search (database.py lines 951 to 1196).
get_recipe_by_name is a substring search: it filters by chef and ILIKE
%name%, takes the most recently created row, and joins the ingredient
links.  smart_search_recipes cascades exact match (plate before batch),
contains match (plate before batch) and keyword match, attaching full
details through get_recipe_by_name.
-/

/-- Ingredient row of a joined recipe result. -/
structure FullIngredient where
  name : String
  quantity : Option Int := none
  unit : Option String := none
  preparation_notes : Option String := none
  is_garnish : Bool := false
  is_optional : Bool := false
deriving Repr, DecidableEq

/-- Joined recipe dict returned by get_recipe_by_name. -/
structure FullRecipe where
  id : Nat
  name : String
  rtype : String
  ingredients : List FullIngredient := []
deriving Repr, DecidableEq

/-- Model of ORDER BY created_at DESC LIMIT 1: a row of maximal created_at,
the earliest-inserted one on ties. -/
def pickLatestPlate (l : List PlateRow) : Option PlateRow :=
  l.foldl (fun acc r =>
    match acc with
    | none => some r
    | some a => if a.created_at < r.created_at then some r else some a) none

/-- Batch counterpart of pickLatestPlate. -/
def pickLatestBatch (l : List BatchRow) : Option BatchRow :=
  l.foldl (fun acc r =>
    match acc with
    | none => some r
    | some a => if a.created_at < r.created_at then some r else some a) none

/-- Join of plate_ingredients with the catalog for one recipe. -/
def plateIngredientsOf (db : DB) (rid : Nat) : List FullIngredient :=
  db.plate_ingredients.filterMap (fun l =>
    if l.recipe_id = rid then
      (db.ingredients.find? (fun ir => decide (ir.id = l.ingredient_id))).map (fun ir =>
        { name := ir.name, quantity := l.quantity, unit := l.unit,
          preparation_notes := l.preparation_notes, is_garnish := l.is_garnish,
          is_optional := l.is_optional })
    else none)

/-- Join of batch_ingredients with the catalog for one recipe. -/
def batchIngredientsOf (db : DB) (rid : Nat) : List FullIngredient :=
  db.batch_ingredients.filterMap (fun l =>
    if l.recipe_id = rid then
      (db.ingredients.find? (fun ir => decide (ir.id = l.ingredient_id))).map (fun ir =>
        { name := ir.name, quantity := l.quantity, unit := l.unit,
          preparation_notes := l.preparation_notes,
          is_optional := l.is_optional })
    else none)

/-- Model of get_recipe_by_name (database.py lines 951 to 1021): batch
recipes are tried first unless a type is forced, matching is ILIKE %name%
with most-recently-created winning. -/
def get_recipe_by_name (db : DB) (chef_id name : String)
    (recipe_type : Option String) : Option FullRecipe :=
  match (if recipe_type = none ∨ recipe_type = some "batch" then
      pickLatestBatch (db.batch_recipes.filter (fun r =>
        decide (r.chef_id = chef_id) && containsCI name r.name))
    else none) with
  | some r =>
    some { id := r.id, name := r.name, rtype := "batch",
           ingredients := batchIngredientsOf db r.id }
  | none =>
    match (if recipe_type = none ∨ recipe_type = some "plate" then
        pickLatestPlate (db.plate_recipes.filter (fun r =>
          decide (r.chef_id = chef_id) && containsCI name r.name))
      else none) with
    | some r =>
      some { id := r.id, name := r.name, rtype := "plate",
             ingredients := plateIngredientsOf db r.id }
    | none => none

/-- Search result record; absent keys of the source dict keep their
defaults. -/
structure SearchResult where
  exact_match : Bool
  best_match : Bool := false
  total_found : Nat := 0
  recipe_type : Option String := none
  recipe : Option FullRecipe := none
  plate_recipes : List PlateRow := []
  batch_recipes : List BatchRow := []
deriving Repr, DecidableEq

/-- Insertion into a list kept sorted by descending created_at, used to
model ORDER BY created_at DESC on plate rows. -/
def insertByCreatedPlate (r : PlateRow) : List PlateRow → List PlateRow
  | [] => [r]
  | x :: xs => if x.created_at < r.created_at then r :: x :: xs else x :: insertByCreatedPlate r xs

/-- Plate rows sorted by descending created_at. -/
def sortByCreatedDescPlate (l : List PlateRow) : List PlateRow :=
  l.foldr insertByCreatedPlate []

/-- Insertion into a list kept sorted by descending created_at, batch side. -/
def insertByCreatedBatch (r : BatchRow) : List BatchRow → List BatchRow
  | [] => [r]
  | x :: xs => if x.created_at < r.created_at then r :: x :: xs else x :: insertByCreatedBatch r xs

/-- Batch rows sorted by descending created_at. -/
def sortByCreatedDescBatch (l : List BatchRow) : List BatchRow :=
  l.foldr insertByCreatedBatch []

/-- One keyword round of the fallback tier: up to five most recent plate
matches then up to five most recent batch matches, deduplicated by id with
first-seen order preserved. -/
def keywordStep (db : DB) (chef_id : String)
    (acc : List PlateRow × List BatchRow) (kw : String) :
    List PlateRow × List BatchRow :=
  let plates5 := (sortByCreatedDescPlate (db.plate_recipes.filter (fun r =>
    decide (r.chef_id = chef_id) && containsCI kw r.name))).take 5
  let acc1 := plates5.foldl (fun (a : List PlateRow × List BatchRow) row =>
    if (a.1.map (fun x => x.id)).contains row.id then a else (a.1 ++ [row], a.2)) acc
  let batches5 := (sortByCreatedDescBatch (db.batch_recipes.filter (fun r =>
    decide (r.chef_id = chef_id) && containsCI kw r.name))).take 5
  batches5.foldl (fun (a : List PlateRow × List BatchRow) row =>
    if (a.2.map (fun x => x.id)).contains row.id then a else (a.1, a.2 ++ [row])) acc1

/-- Keyword list of the source: whitespace tokens longer than two
characters, or the whole query when every token is short. -/
def searchKeywords (query_lower : String) : List String :=
  if ((query_lower.split (fun c => pySpace c)).filter
        (fun w => decide (w ≠ "") && decide (w.length > 2))).isEmpty then
    [query_lower]
  else
    (query_lower.split (fun c => pySpace c)).filter
      (fun w => decide (w ≠ "") && decide (w.length > 2))

/-- Result assembly of the keyword tier. -/
def keywordResult (db : DB) (chef_id : String)
    (pr : List PlateRow × List BatchRow) : SearchResult :=
  match pr with
  | ([p], []) =>
    { exact_match := false, best_match := false, total_found := 1,
      recipe_type := some "plate",
      recipe := get_recipe_by_name db chef_id p.name (some "plate"),
      plate_recipes := [p], batch_recipes := [] }
  | ([], [b]) =>
    { exact_match := false, best_match := false, total_found := 1,
      recipe_type := some "batch",
      recipe := get_recipe_by_name db chef_id b.name (some "batch"),
      plate_recipes := [], batch_recipes := [b] }
  | (ps, bs) =>
    { exact_match := false, best_match := false,
      total_found := ps.length + bs.length,
      plate_recipes := ps, batch_recipes := bs }

/-- Model of smart_search_recipes (database.py lines 1024 to 1196). -/
def smart_search_recipes (db : DB) (chef_id query : String) : SearchResult :=
  match pickLatestPlate (db.plate_recipes.filter (fun r =>
      decide (r.chef_id = chef_id) &&
        decide (pyLower r.name = pyLower (pyStrip query)))) with
  | some p =>
    { exact_match := true, total_found := 1, recipe_type := some "plate",
      recipe := get_recipe_by_name db chef_id p.name (some "plate"),
      plate_recipes := [p], batch_recipes := [] }
  | none =>
  match pickLatestBatch (db.batch_recipes.filter (fun r =>
      decide (r.chef_id = chef_id) &&
        decide (pyLower r.name = pyLower (pyStrip query)))) with
  | some b =>
    { exact_match := true, total_found := 1, recipe_type := some "batch",
      recipe := get_recipe_by_name db chef_id b.name (some "batch"),
      plate_recipes := [], batch_recipes := [b] }
  | none =>
  match pickLatestPlate (db.plate_recipes.filter (fun r =>
      decide (r.chef_id = chef_id) && containsCI (pyStrip query) r.name)) with
  | some p =>
    { exact_match := false, best_match := true, total_found := 1,
      recipe_type := some "plate",
      recipe := get_recipe_by_name db chef_id p.name (some "plate"),
      plate_recipes := [p], batch_recipes := [] }
  | none =>
  match pickLatestBatch (db.batch_recipes.filter (fun r =>
      decide (r.chef_id = chef_id) && containsCI (pyStrip query) r.name)) with
  | some b =>
    { exact_match := false, best_match := true, total_found := 1,
      recipe_type := some "batch",
      recipe := get_recipe_by_name db chef_id b.name (some "batch"),
      plate_recipes := [], batch_recipes := [b] }
  | none =>
    keywordResult db chef_id
      ((searchKeywords (pyLower (pyStrip query))).foldl (keywordStep db chef_id) ([], []))

/-- Library holding the plate recipes "Biryani" (older) and "Hyderabadi
Biryani" (newer) of chef c, for C8. -/
def C8db : DB :=
  { plate_recipes :=
      [{ id := 1, chef_id := "c", name := "Biryani", created_at := 1 },
       { id := 2, chef_id := "c", name := "Hyderabadi Biryani", created_at := 2 }],
    next_id := 3 }

/-- C8 counterexample: searching "biryani" does return exact_match true with
the exact recipe "Biryani" listed, but the attached full details are fetched
by get_recipe_by_name, a substring search on the exact name, which picks the
most recently created "Hyderabadi Biryani" instead of the exact match. -/
theorem C8_smart_search_counterexample :
    (smart_search_recipes C8db "c" "biryani").exact_match = true ∧
    (smart_search_recipes C8db "c" "biryani").plate_recipes.map (fun r => r.name)
      = ["Biryani"] ∧
    (smart_search_recipes C8db "c" "biryani").recipe.map (fun r => r.name)
      = some "Hyderabadi Biryani" ∧
    ("Hyderabadi Biryani" : String) ≠ "Biryani" := by
  decide

/-- C8 (amended): when a plate recipe of the chef matches the cleaned query
case-insensitively and exactly, smart_search_recipes short-circuits before
the batch, contains and keyword tiers and returns exact_match true with
recipe_type plate and that recipe listed; the attached full details however
are those of get_recipe_by_name run on the exact name, that is of the most
recently created recipe whose name merely contains the exact name, which is
the exact recipe itself only when no newer recipe name contains it. -/
theorem C8_smart_search_exact_spec (db : DB) (chef_id query : String) (p : PlateRow)
    (h : pickLatestPlate (db.plate_recipes.filter (fun r =>
        decide (r.chef_id = chef_id) &&
          decide (pyLower r.name = pyLower (pyStrip query)))) = some p) :
    (smart_search_recipes db chef_id query).exact_match = true ∧
    (smart_search_recipes db chef_id query).recipe_type = some "plate" ∧
    (smart_search_recipes db chef_id query).plate_recipes = [p] ∧
    (smart_search_recipes db chef_id query).recipe
      = get_recipe_by_name db chef_id p.name (some "plate") := by
  unfold smart_search_recipes
  rw [h]
  exact ⟨rfl, rfl, rfl, rfl⟩

/-- C8 witness: in the two-recipe library of C8db the exact plate match
"Biryani" is found and the details are attached through the substring
fetch. -/
theorem C8_smart_search_exact_spec_witness :
    (smart_search_recipes C8db "c" "biryani").exact_match = true ∧
    (smart_search_recipes C8db "c" "biryani").recipe
      = get_recipe_by_name C8db "c" "Biryani" (some "plate") := by
  have h := C8_smart_search_exact_spec C8db "c" "biryani"
    { id := 1, chef_id := "c", name := "Biryani", created_at := 1 } (by decide)
  exact ⟨h.1, h.2.2.2⟩

/-!
Initial save (save_plate_recipe, database.py lines 581 to 732, and
save_batch_recipe, lines 443 to 577).  Keyword arguments are bundled in a
record.  The flow is: resolve a unique name, insert the recipe row, link
the ingredients through the chef-scoped catalog, commit, then attempt
version 1.0 as a best-effort secondary step; version_ok models whether that
step raises, and on failure the version work is rolled back while the
committed recipe row and the returned id survive.
-/

/-- Keyword arguments of save_plate_recipe (sub-recipe links omitted, see
the state note). -/
structure PlateArgs where
  chef_id : String
  name : String
  description : Option String := none
  serves : Option Int := none
  category : Option String := none
  cuisine : Option String := none
  plating_instructions : Option String := none
  garnish : Option String := none
  presentation_notes : Option String := none
  prep_time_minutes : Option Int := none
  cook_time_minutes : Option Int := none
  difficulty : Option String := none
  ingredients : List IngArg := []
  notes : Option String := none
  is_complete : Bool := false
deriving Repr, DecidableEq

/-- Keyword arguments of save_batch_recipe. -/
structure BatchArgs where
  chef_id : String
  name : String
  description : Option String := none
  yield_quantity : Option Int := none
  yield_unit : Option String := none
  prep_time_minutes : Option Int := none
  cook_time_minutes : Option Int := none
  temperature : Option Int := none
  temperature_unit : String := "C"
  equipment : Option (List String) := none
  instructions : Option String := none
  ingredients : List IngArg := []
  notes : Option String := none
  is_complete : Bool := false
deriving Repr, DecidableEq

/-- One iteration of the plate ingredient-linking loop of
save_plate_recipe. -/
def linkPlateStep (chef_id : String) (rid : Nat) (d : DB) (ing : IngArg) : DB :=
  (fun pr =>
    { pr.1 with
        plate_ingredients := pr.1.plate_ingredients ++
          [{ recipe_id := rid, ingredient_id := pr.2, quantity := ing.quantity,
             unit := ing.unit, preparation_notes := ing.preparation_notes,
             is_garnish := ing.is_garnish.getD false,
             is_optional := ing.is_optional.getD false }] })
    (_get_or_create_ingredient d chef_id ing.name ing.unit ing.category)

/-- One iteration of the batch ingredient-linking loop of
save_batch_recipe; batch links carry no is_garnish column. -/
def linkBatchStep (chef_id : String) (rid : Nat) (d : DB) (ing : IngArg) : DB :=
  (fun pr =>
    { pr.1 with
        batch_ingredients := pr.1.batch_ingredients ++
          [{ recipe_id := rid, ingredient_id := pr.2, quantity := ing.quantity,
             unit := ing.unit, preparation_notes := ing.preparation_notes,
             is_optional := ing.is_optional.getD false }] })
    (_get_or_create_ingredient d chef_id ing.name ing.unit ing.category)

/-- Unique name computed for a plate save against the current table. -/
def savedPlateName (db : DB) (a : PlateArgs) (timestamp : Nat) : String :=
  _get_unique_recipe_name (db.plate_recipes.map (fun r => (r.chef_id, r.name)))
    a.chef_id a.name timestamp

/-- Unique name computed for a batch save against the current table. -/
def savedBatchName (db : DB) (a : BatchArgs) (timestamp : Nat) : String :=
  _get_unique_recipe_name (db.batch_recipes.map (fun r => (r.chef_id, r.name)))
    a.chef_id a.name timestamp

/-- The plate row inserted by save_plate_recipe. -/
def newPlateRow (db : DB) (a : PlateArgs) (timestamp created_at : Nat) : PlateRow :=
  { id := db.next_id, chef_id := a.chef_id, name := savedPlateName db a timestamp,
    description := a.description, serves := a.serves, category := a.category,
    cuisine := a.cuisine, plating_instructions := a.plating_instructions,
    garnish := a.garnish, presentation_notes := a.presentation_notes,
    prep_time_minutes := a.prep_time_minutes, cook_time_minutes := a.cook_time_minutes,
    difficulty := a.difficulty, notes := a.notes, is_complete := a.is_complete,
    created_at := created_at }

/-- The batch row inserted by save_batch_recipe. -/
def newBatchRow (db : DB) (a : BatchArgs) (timestamp created_at : Nat) : BatchRow :=
  { id := db.next_id, chef_id := a.chef_id, name := savedBatchName db a timestamp,
    description := a.description, yield_quantity := a.yield_quantity,
    yield_unit := a.yield_unit, prep_time_minutes := a.prep_time_minutes,
    cook_time_minutes := a.cook_time_minutes, temperature := a.temperature,
    temperature_unit := a.temperature_unit, equipment := a.equipment,
    instructions := a.instructions, notes := a.notes, is_complete := a.is_complete,
    created_at := created_at }

/-- Metadata bag handed to version 1.0 creation by save_plate_recipe. -/
def plateVersionData (db : DB) (a : PlateArgs) (timestamp : Nat) : RecipeData :=
  { name := some (savedPlateName db a timestamp), description := a.description,
    serves := a.serves, category := a.category, cuisine := a.cuisine,
    plating_instructions := a.plating_instructions, garnish := a.garnish,
    presentation_notes := a.presentation_notes,
    prep_time_minutes := a.prep_time_minutes,
    cook_time_minutes := a.cook_time_minutes,
    difficulty := a.difficulty, notes := a.notes }

/-- Metadata bag handed to version 1.0 creation by save_batch_recipe; the
source maps its notes argument onto storage_instructions. -/
def batchVersionData (db : DB) (a : BatchArgs) (timestamp : Nat) : RecipeData :=
  { name := some (savedBatchName db a timestamp), description := a.description,
    yield_quantity := a.yield_quantity, yield_unit := a.yield_unit,
    prep_time_minutes := a.prep_time_minutes,
    cook_time_minutes := a.cook_time_minutes,
    storage_instructions := a.notes, temperature := a.temperature,
    temperature_unit := some a.temperature_unit, equipment := a.equipment,
    instructions := a.instructions, notes := a.notes }

/-- Committed state of a plate save: recipe row inserted and ingredients
linked, before the version step. -/
def commitPlate (db : DB) (a : PlateArgs) (timestamp created_at : Nat) : DB :=
  (a.ingredients).foldl (linkPlateStep a.chef_id db.next_id)
    { db with
        plate_recipes := db.plate_recipes ++ [newPlateRow db a timestamp created_at],
        next_id := db.next_id + 1 }

/-- Committed state of a batch save. -/
def commitBatch (db : DB) (a : BatchArgs) (timestamp created_at : Nat) : DB :=
  (a.ingredients).foldl (linkBatchStep a.chef_id db.next_id)
    { db with
        batch_recipes := db.batch_recipes ++ [newBatchRow db a timestamp created_at],
        next_id := db.next_id + 1 }

/-- Model of save_plate_recipe (database.py lines 581 to 732). -/
def save_plate_recipe (db : DB) (a : PlateArgs) (timestamp created_at : Nat)
    (version_ok : Bool) : DB × Nat :=
  (if version_ok then
    (_create_recipe_version (commitPlate db a timestamp created_at) db.next_id
      "plate" (mkRat 1 1) (plateVersionData db a timestamp) a.ingredients
      a.chef_id (some "Initial recipe creation (v1.0)") none).1
  else commitPlate db a timestamp created_at,
   db.next_id)

/-- Model of save_batch_recipe (database.py lines 443 to 577). -/
def save_batch_recipe (db : DB) (a : BatchArgs) (timestamp created_at : Nat)
    (version_ok : Bool) : DB × Nat :=
  (if version_ok then
    (_create_recipe_version (commitBatch db a timestamp created_at) db.next_id
      "batch" (mkRat 1 1) (batchVersionData db a timestamp) a.ingredients
      a.chef_id (some "Initial recipe creation (v1.0)") none).1
  else commitBatch db a timestamp created_at,
   db.next_id)

/-- History-relevant projection of a plate version row. -/
def plateVProj (v : PlateVersionRow) : Nat × Rat × Option String × Option String :=
  (v.recipe_id, v.version_number, v.change_summary, v.change_reason)

/-- History-relevant projection of a batch version row. -/
def batchVProj (v : BatchVersionRow) : Nat × Rat × Option String × Option String :=
  (v.recipe_id, v.version_number, v.change_summary, v.change_reason)

theorem goc_pr (d : DB) (chef nm : String) (u c : Option String) :
    (_get_or_create_ingredient d chef nm u c).1.plate_recipes = d.plate_recipes := by
  unfold _get_or_create_ingredient
  split
  · rfl
  · rfl

theorem goc_pv (d : DB) (chef nm : String) (u c : Option String) :
    (_get_or_create_ingredient d chef nm u c).1.plate_recipe_versions
      = d.plate_recipe_versions := by
  unfold _get_or_create_ingredient
  split
  · rfl
  · rfl

theorem goc_br (d : DB) (chef nm : String) (u c : Option String) :
    (_get_or_create_ingredient d chef nm u c).1.batch_recipes = d.batch_recipes := by
  unfold _get_or_create_ingredient
  split
  · rfl
  · rfl

theorem goc_bv (d : DB) (chef nm : String) (u c : Option String) :
    (_get_or_create_ingredient d chef nm u c).1.batch_recipe_versions
      = d.batch_recipe_versions := by
  unfold _get_or_create_ingredient
  split
  · rfl
  · rfl

theorem vres_pr (d : DB) (ing : IngArg) :
    (_version_resolve_ingredient d ing).1.plate_recipes = d.plate_recipes := by
  unfold _version_resolve_ingredient
  split
  · rfl
  · rfl

theorem vres_pv (d : DB) (ing : IngArg) :
    (_version_resolve_ingredient d ing).1.plate_recipe_versions
      = d.plate_recipe_versions := by
  unfold _version_resolve_ingredient
  split
  · rfl
  · rfl

theorem vres_br (d : DB) (ing : IngArg) :
    (_version_resolve_ingredient d ing).1.batch_recipes = d.batch_recipes := by
  unfold _version_resolve_ingredient
  split
  · rfl
  · rfl

theorem vres_bv (d : DB) (ing : IngArg) :
    (_version_resolve_ingredient d ing).1.batch_recipe_versions
      = d.batch_recipe_versions := by
  unfold _version_resolve_ingredient
  split
  · rfl
  · rfl

theorem linkPlateFold_pr (chef : String) (rid : Nat) :
    ∀ (ings : List IngArg) (d : DB),
      (List.foldl (linkPlateStep chef rid) d ings).plate_recipes = d.plate_recipes
  | [], _ => rfl
  | ing :: ings, d =>
    (linkPlateFold_pr chef rid ings (linkPlateStep chef rid d ing)).trans
      (goc_pr d chef ing.name ing.unit ing.category)

theorem linkPlateFold_pv (chef : String) (rid : Nat) :
    ∀ (ings : List IngArg) (d : DB),
      (List.foldl (linkPlateStep chef rid) d ings).plate_recipe_versions
        = d.plate_recipe_versions
  | [], _ => rfl
  | ing :: ings, d =>
    (linkPlateFold_pv chef rid ings (linkPlateStep chef rid d ing)).trans
      (goc_pv d chef ing.name ing.unit ing.category)

theorem linkBatchFold_br (chef : String) (rid : Nat) :
    ∀ (ings : List IngArg) (d : DB),
      (List.foldl (linkBatchStep chef rid) d ings).batch_recipes = d.batch_recipes
  | [], _ => rfl
  | ing :: ings, d =>
    (linkBatchFold_br chef rid ings (linkBatchStep chef rid d ing)).trans
      (goc_br d chef ing.name ing.unit ing.category)

theorem linkBatchFold_bv (chef : String) (rid : Nat) :
    ∀ (ings : List IngArg) (d : DB),
      (List.foldl (linkBatchStep chef rid) d ings).batch_recipe_versions
        = d.batch_recipe_versions
  | [], _ => rfl
  | ing :: ings, d =>
    (linkBatchFold_bv chef rid ings (linkBatchStep chef rid d ing)).trans
      (goc_bv d chef ing.name ing.unit ing.category)

theorem snapPlateFold_pr (vid : Nat) :
    ∀ (ings : List IngArg) (d : DB),
      (List.foldl (snapPlateStep vid) d ings).plate_recipes = d.plate_recipes
  | [], _ => rfl
  | ing :: ings, d =>
    (snapPlateFold_pr vid ings (snapPlateStep vid d ing)).trans (vres_pr d ing)

theorem snapPlateFold_pv (vid : Nat) :
    ∀ (ings : List IngArg) (d : DB),
      (List.foldl (snapPlateStep vid) d ings).plate_recipe_versions
        = d.plate_recipe_versions
  | [], _ => rfl
  | ing :: ings, d =>
    (snapPlateFold_pv vid ings (snapPlateStep vid d ing)).trans (vres_pv d ing)

theorem snapBatchFold_br (vid : Nat) :
    ∀ (ings : List IngArg) (d : DB),
      (List.foldl (snapBatchStep vid) d ings).batch_recipes = d.batch_recipes
  | [], _ => rfl
  | ing :: ings, d =>
    (snapBatchFold_br vid ings (snapBatchStep vid d ing)).trans (vres_br d ing)

theorem snapBatchFold_bv (vid : Nat) :
    ∀ (ings : List IngArg) (d : DB),
      (List.foldl (snapBatchStep vid) d ings).batch_recipe_versions
        = d.batch_recipe_versions
  | [], _ => rfl
  | ing :: ings, d =>
    (snapBatchFold_bv vid ings (snapBatchStep vid d ing)).trans (vres_bv d ing)

theorem createPlateVersion_pr (d : DB) (rid : Nat) (vn : Rat) (rd : RecipeData)
    (ings : List IngArg) (cb : String) (cs cr : Option String) :
    (createPlateVersion d rid vn rd ings cb cs cr).plate_recipes = d.plate_recipes := by
  unfold createPlateVersion
  exact snapPlateFold_pr d.next_id ings _

theorem createPlateVersion_pv (d : DB) (rid : Nat) (vn : Rat) (rd : RecipeData)
    (ings : List IngArg) (cb : String) (cs cr : Option String) :
    (createPlateVersion d rid vn rd ings cb cs cr).plate_recipe_versions.map plateVProj
      = d.plate_recipe_versions.map plateVProj ++ [(rid, vn, cs, cr)] := by
  unfold createPlateVersion
  rw [snapPlateFold_pv d.next_id ings]
  simp [plateVProj]

theorem createBatchVersion_br (d : DB) (rid : Nat) (vn : Rat) (rd : RecipeData)
    (ings : List IngArg) (cb : String) (cs cr : Option String) :
    (createBatchVersion d rid vn rd ings cb cs cr).batch_recipes = d.batch_recipes := by
  unfold createBatchVersion
  exact snapBatchFold_br d.next_id ings _

theorem createBatchVersion_bv (d : DB) (rid : Nat) (vn : Rat) (rd : RecipeData)
    (ings : List IngArg) (cb : String) (cs cr : Option String) :
    (createBatchVersion d rid vn rd ings cb cs cr).batch_recipe_versions.map batchVProj
      = d.batch_recipe_versions.map batchVProj ++ [(rid, vn, cs, cr)] := by
  unfold createBatchVersion
  rw [snapBatchFold_bv d.next_id ings]
  simp [batchVProj]

theorem commitPlate_pr (db : DB) (a : PlateArgs) (timestamp created_at : Nat) :
    (commitPlate db a timestamp created_at).plate_recipes
      = db.plate_recipes ++ [newPlateRow db a timestamp created_at] := by
  unfold commitPlate
  exact linkPlateFold_pr a.chef_id db.next_id a.ingredients _

theorem commitPlate_pv (db : DB) (a : PlateArgs) (timestamp created_at : Nat) :
    (commitPlate db a timestamp created_at).plate_recipe_versions
      = db.plate_recipe_versions := by
  unfold commitPlate
  exact linkPlateFold_pv a.chef_id db.next_id a.ingredients _

theorem commitBatch_br (db : DB) (a : BatchArgs) (timestamp created_at : Nat) :
    (commitBatch db a timestamp created_at).batch_recipes
      = db.batch_recipes ++ [newBatchRow db a timestamp created_at] := by
  unfold commitBatch
  exact linkBatchFold_br a.chef_id db.next_id a.ingredients _

theorem commitBatch_bv (db : DB) (a : BatchArgs) (timestamp created_at : Nat) :
    (commitBatch db a timestamp created_at).batch_recipe_versions
      = db.batch_recipe_versions := by
  unfold commitBatch
  exact linkBatchFold_bv a.chef_id db.next_id a.ingredients _

theorem save_plate_fst_of_true (db : DB) (a : PlateArgs) (timestamp created_at : Nat) :
    (save_plate_recipe db a timestamp created_at true).1
      = createPlateVersion (commitPlate db a timestamp created_at) db.next_id
          (mkRat 1 1) (plateVersionData db a timestamp) a.ingredients a.chef_id
          (some "Initial recipe creation (v1.0)") none := rfl

theorem save_plate_fst_of_false (db : DB) (a : PlateArgs) (timestamp created_at : Nat) :
    (save_plate_recipe db a timestamp created_at false).1
      = commitPlate db a timestamp created_at := rfl

theorem save_batch_fst_of_true (db : DB) (a : BatchArgs) (timestamp created_at : Nat) :
    (save_batch_recipe db a timestamp created_at true).1
      = createBatchVersion (commitBatch db a timestamp created_at) db.next_id
          (mkRat 1 1) (batchVersionData db a timestamp) a.ingredients a.chef_id
          (some "Initial recipe creation (v1.0)") none := by
  unfold save_batch_recipe _create_recipe_version
  rw [if_pos rfl, if_neg (by decide)]

theorem save_batch_fst_of_false (db : DB) (a : BatchArgs) (timestamp created_at : Nat) :
    (save_batch_recipe db a timestamp created_at false).1
      = commitBatch db a timestamp created_at := rfl

/-- C9: for every state, argument record and outcome of the best-effort
version step, the initial save inserts the recipe row, returns its id, and
on version success appends exactly one version row with number 1.0, change
summary "Initial recipe creation (v1.0)" and no change reason, while on
version failure the version tables gain nothing yet the recipe row stays
committed and the same id is still returned. -/
theorem C9_initial_save_version_semantics :
    (∀ (db : DB) (a : PlateArgs) (timestamp created_at : Nat) (version_ok : Bool),
      (save_plate_recipe db a timestamp created_at version_ok).2 = db.next_id ∧
      (save_plate_recipe db a timestamp created_at version_ok).1.plate_recipes
        = db.plate_recipes ++ [newPlateRow db a timestamp created_at] ∧
      (save_plate_recipe db a timestamp created_at version_ok).1.plate_recipe_versions.map
          plateVProj
        = db.plate_recipe_versions.map plateVProj ++
            (if version_ok then
              [(db.next_id, mkRat 1 1, some "Initial recipe creation (v1.0)",
                (none : Option String))]
            else [])) ∧
    (∀ (db : DB) (a : BatchArgs) (timestamp created_at : Nat) (version_ok : Bool),
      (save_batch_recipe db a timestamp created_at version_ok).2 = db.next_id ∧
      (save_batch_recipe db a timestamp created_at version_ok).1.batch_recipes
        = db.batch_recipes ++ [newBatchRow db a timestamp created_at] ∧
      (save_batch_recipe db a timestamp created_at version_ok).1.batch_recipe_versions.map
          batchVProj
        = db.batch_recipe_versions.map batchVProj ++
            (if version_ok then
              [(db.next_id, mkRat 1 1, some "Initial recipe creation (v1.0)",
                (none : Option String))]
            else [])) := by
  constructor
  · intro db a timestamp created_at version_ok
    refine ⟨rfl, ?_, ?_⟩
    · cases version_ok with
      | false => rw [save_plate_fst_of_false, commitPlate_pr]
      | true =>
        rw [save_plate_fst_of_true, createPlateVersion_pr, commitPlate_pr]
    · cases version_ok with
      | false =>
        rw [save_plate_fst_of_false, commitPlate_pv]
        simp
      | true =>
        rw [save_plate_fst_of_true, createPlateVersion_pv, commitPlate_pv]
        simp
  · intro db a timestamp created_at version_ok
    refine ⟨rfl, ?_, ?_⟩
    · cases version_ok with
      | false => rw [save_batch_fst_of_false, commitBatch_br]
      | true =>
        rw [save_batch_fst_of_true, createBatchVersion_br, commitBatch_br]
    · cases version_ok with
      | false =>
        rw [save_batch_fst_of_false, commitBatch_bv]
        simp
      | true =>
        rw [save_batch_fst_of_true, createBatchVersion_bv, commitBatch_bv]
        simp
